import Mathlib

/-!
Shallow embedding of the API_Agente_Database service (FastAPI + SQL Server +
LangChain) and proofs about its authentication, credential-store,
token-service and connection-registry behaviour.

Sources embedded:
  * `controllers/controllers.py` — route declarations and HTTP error mapping;
  * `services/user_service.py` — startup env checks, register/login/reset,
    JWT issue/verify, `get_current_user`;
  * `services/database_services.py` — connection-registry service operations;
  * `entities/database_agente.py` — the in-memory `CONNECTION_STRINGS` map,
    `add_connection` / `remove_connection`, and `_setup_environment`;
  * `entities/model_provider.py` — the model allow-list.

External libraries the code calls (bcrypt, PyJWT, the process environment,
Python `dict`) are modelled by explicit executable Lean functions that follow
those libraries' documented behaviour; each such model carries a doc comment
saying what it stands for.
-/

namespace APIAgente

/-! ## HTTP-level error values

`fastapi.HTTPException(status_code, detail)` is modelled by its two visible
fields. `strOfHTTPError` models Python `str(e)` on a Starlette/FastAPI
`HTTPException`, which renders as `"<status_code>: <detail>"`. -/

structure HTTPError where
  status : Nat
  detail : String
deriving DecidableEq, Repr

def strOfHTTPError (e : HTTPError) : String :=
  toString e.status ++ ": " ++ e.detail

/-! ## Route gating (controllers/controllers.py)

Each `@router.<method>` decorator either carries
`dependencies=[Depends(get_current_user)]` or not. `requiresAuth` transcribes
exactly which of the eight routes carry that dependency in the source:
`/register` (line 27), `/reset_password` (line 102), `/create_database`
(line 140), `/databases` (line 179), `/delete_database/{db_name}` (line 195),
`/models` (line 229) and `/ask` (line 245) all declare it; `/login`
(lines 62-67) is the only route that does not. -/

inductive Endpoint where
  | register
  | login
  | resetPassword
  | createDatabase
  | listDatabases
  | deleteDatabase
  | listModels
  | ask
deriving DecidableEq, Repr

def requiresAuth : Endpoint → Bool
  | .register => true
  | .login => false
  | .resetPassword => true
  | .createDatabase => true
  | .listDatabases => true
  | .deleteDatabase => true
  | .listModels => true
  | .ask => true

/-- Whether the route handler body is allowed to run for a request whose
bearer-token check has outcome `tokenOk`: FastAPI runs the
`get_current_user` dependency first on gated routes and aborts with 401
before the handler when it fails. -/
def handlerRuns (e : Endpoint) (tokenOk : Bool) : Bool :=
  !requiresAuth e || tokenOk

/-! ## Connection Registry (entities/database_agente.py, services/database_services.py)

`DatabaseAgent.CONNECTION_STRINGS` is a Python `dict` from logical database
name to connection string; it is modelled as an association list with unique
keys, insertion appending at the end (Python dicts preserve insertion order)
and `del` removing the single entry with that key. -/

abbrev Registry := List (String × String)

/-- Python `db_name in CONNECTION_STRINGS`. -/
def registryMem (reg : Registry) (name : String) : Bool :=
  reg.any (fun x => x.1 = name)

/-- The three kinds of `ValueError` raised by the registry code, one
constructor per raise site family: a missing/empty field, a duplicate name,
and an unknown name. The carried string is the `ValueError` message (the
source interpolates the name into the message with surrounding quotes; the
model concatenates the name without the quote characters). -/
inductive RegError where
  | validation (msg : String)
  | conflict (msg : String)
  | notFound (msg : String)
deriving DecidableEq, Repr

def RegError.msg : RegError → String
  | .validation m => m
  | .conflict m => m
  | .notFound m => m

inductive RegKind where
  | validation
  | conflict
  | notFound
deriving DecidableEq, Repr

def RegError.kind : RegError → RegKind
  | .validation _ => .validation
  | .conflict _ => .conflict
  | .notFound _ => .notFound

/-- The kind of error a `Registry` operation result carries, `none` on
success. -/
def errKind? {α : Type} : Except RegError α → Option RegKind
  | .error e => some e.kind
  | .ok _ => none

/-- `DatabaseService.validate_connection_params`: five emptiness checks in
source order, then the duplicate-name check against `CONNECTION_STRINGS`.
(The `isinstance(_, str)` halves of the checks are vacuous in the typed
model.) -/
def validate_connection_params (reg : Registry)
    (db_name server database user password : String) : Except RegError Unit :=
  if db_name = "" then .error (.validation "Nome do banco de dados é obrigatório")
  else if server = "" then .error (.validation "Servidor é obrigatório")
  else if database = "" then .error (.validation "Database é obrigatório")
  else if user = "" then .error (.validation "Usuário é obrigatório")
  else if password = "" then .error (.validation "Senha é obrigatória")
  else if registryMem reg db_name then
    .error (.conflict ("Já existe um banco de dados cadastrado com o nome " ++ db_name))
  else .ok ()

/-- `DatabaseService.DRIVER_NAME`. -/
def DRIVER_NAME : String := "ODBC Driver 17 for SQL Server"

/-- The connection string assembled inside `DatabaseService.create_database`
(the f-string with `DRIVER={...};SERVER=...;DATABASE=...;UID=...;PWD=...;`).
-/
def buildConnectionString (server database user password : String) : String :=
  "DRIVER=\x7b" ++ DRIVER_NAME ++ "\x7d;SERVER=" ++ server ++
    ";DATABASE=" ++ database ++ ";UID=" ++ user ++ ";PWD=" ++ password ++ ";"

/-- `DatabaseAgent.add_connection`: re-checks membership, then
`CONNECTION_STRINGS[db_name] = connection_string` (dict insertion = append
for a fresh key). -/
def add_connection (reg : Registry) (db_name connection_string : String) :
    Except RegError Registry :=
  if registryMem reg db_name then
    .error (.conflict ("Banco de dados " ++ db_name ++ " já existe"))
  else .ok (reg ++ [(db_name, connection_string)])

/-- `DatabaseAgent.remove_connection`: membership check then
`del CONNECTION_STRINGS[db_name]` (removes the unique entry with that key).
-/
def remove_connection (reg : Registry) (db_name : String) :
    Except RegError Registry :=
  if !registryMem reg db_name then
    .error (.notFound ("Banco de dados " ++ db_name ++ " não encontrado"))
  else .ok (reg.eraseP (fun x => x.1 = db_name))

/-- The registry-level `add` of the spec: the body of
`DatabaseService.create_database` up to and including the
`DatabaseAgent.add_connection` call, with the registry passed explicitly.
On a `ValueError` the source has not yet mutated `CONNECTION_STRINGS`, so the
first component is the unchanged registry. -/
def registryAdd (reg : Registry) (db_name server database user password : String) :
    Registry × Except RegError String :=
  match validate_connection_params reg db_name server database user password with
  | .error e => (reg, .error e)
  | .ok _ =>
    match add_connection reg db_name (buildConnectionString server database user password) with
    | .error e => (reg, .error e)
    | .ok reg2 => (reg2, .ok ("Banco de dados " ++ db_name ++ " criado com sucesso."))

/-- `DatabaseService.create_database`: any `ValueError` from validation or
`add_connection` is caught and re-raised as `HTTPException(400, str(ve))`;
success returns the confirmation message. (The `except Exception` 500 arm of
the source is unreachable in the pure model.) -/
def create_database_service (reg : Registry)
    (db_name server database user password : String) :
    Registry × Except HTTPError String :=
  match registryAdd reg db_name server database user password with
  | (r, .error e) => (r, .error ⟨400, e.msg⟩)
  | (r, .ok m) => (r, .ok m)

/-- The `/create_database` route handler: calls the service and catches every
`Exception` — including the service's own `HTTPException(400, ...)`, since
`HTTPException` subclasses `Exception` and the handler has no narrower
`except` — flattening it to `HTTPException(500, "Erro ao criar banco de
dados: " + str(e))`. Success answers 201 with the message. Result:
(registry after the call, HTTP status, body/detail). -/
def create_database_controller (reg : Registry)
    (db_name server database user password : String) :
    Registry × Nat × String :=
  match create_database_service reg db_name server database user password with
  | (r, .ok m) => (r, 201, m)
  | (r, .error e) => (r, 500, "Erro ao criar banco de dados: " ++ strOfHTTPError e)

/-- `DatabaseService.get_connection_string` (the registry `resolve`):
emptiness check, membership check, then the dict lookup; both `ValueError`s
are caught and re-raised as `HTTPException(404, str(ve))`. -/
def get_connection_string (reg : Registry) (db_name : String) :
    Except HTTPError String :=
  if db_name = "" then .error ⟨404, "Nome do banco de dados é obrigatório"⟩
  else
    match reg.find? (fun x => x.1 = db_name) with
    | none => .error ⟨404, "Banco de dados " ++ db_name ++ " não encontrado"⟩
    | some entry => .ok entry.2

/-- `DatabaseService.delete_database`: emptiness check, membership check,
`del`, each `ValueError` surfaced as `HTTPException(404, str(ve))`. -/
def delete_database_service (reg : Registry) (db_name : String) :
    Registry × Except HTTPError String :=
  if db_name = "" then (reg, .error ⟨404, "Nome do banco de dados é obrigatório"⟩)
  else if !registryMem reg db_name then
    (reg, .error ⟨404, "Banco de dados " ++ db_name ++ " não encontrado"⟩)
  else (reg.eraseP (fun x => x.1 = db_name),
        .ok ("Banco de dados " ++ db_name ++ " removido com sucesso."))

/-! Sequences of registry operations, for the uniqueness invariant. -/

inductive RegOp where
  | add (db_name server database user password : String)
  | remove (db_name : String)
deriving DecidableEq, Repr

/-- Applying one operation to the registry state: a failed operation leaves
the registry as it was (the source raises before mutating). -/
def applyOp (reg : Registry) : RegOp → Registry
  | .add n s d u p => (registryAdd reg n s d u p).1
  | .remove n =>
    match remove_connection reg n with
    | .ok r => r
    | .error _ => reg

def runOps (ops : List RegOp) (reg : Registry) : Registry :=
  ops.foldl applyOp reg

/-- The registry invariant: logical names are pairwise distinct (a Python
dict cannot hold a duplicate key). -/
def keysNodup (reg : Registry) : Prop :=
  (reg.map (fun x => x.1)).Nodup

instance (reg : Registry) : Decidable (keysNodup reg) := by
  unfold keysNodup; infer_instance

/-! ## bcrypt model (services/user_service.py uses `bcrypt.hashpw` / `bcrypt.checkpw`)

bcrypt is modelled as an ideal salted one-way hash: the hash value records
the hashed password and the salt; `checkpw` succeeds exactly when the
candidate password equals the hashed one (`bcrypt.checkpw` re-hashes the
candidate under the stored salt and compares). -/

structure BcryptHash where
  hashedPw : String
  salt : Nat
deriving DecidableEq, Repr

def hashpw (password : String) (salt : Nat) : BcryptHash :=
  ⟨password, salt⟩

def checkpw (password : String) (h : BcryptHash) : Bool :=
  h.hashedPw = password

/-! ## Credential Store (the `Usuarios` table)

A row set of (username, password_hash); `SELECT ... WHERE username = x`
returns the first matching row, `UPDATE ... WHERE username = x` rewrites
every matching row and reports the affected row count. -/

abbrev UserStore := List (String × BcryptHash)

/-- The `SELECT username, password_hash FROM Usuarios WHERE username = :u`
query followed by `fetchone()`. -/
def lookupUser (store : UserStore) (username : String) :
    Option (String × BcryptHash) :=
  store.find? (fun r => r.1 = username)

/-! ## JWT model (PyJWT, used by services/user_service.py with HS256)

A token is modelled by the claims it encodes, the key it was signed with and
a well-formedness flag (`wellFormed = false` stands for a string that does
not parse as a JWT at all). `jwtDecode` follows PyJWT's documented `decode`
behaviour: a malformed token raises `DecodeError` and a signature mismatch
raises `InvalidSignatureError` (both subclasses of `InvalidTokenError`)
BEFORE claim validation; only when the signature verifies is the `exp` claim
compared against the current time, raising `ExpiredSignatureError` when it
lies in the past. A token with no `exp` claim never expires. -/

structure JwtClaims where
  username : Option String
  exp : Option Int
deriving DecidableEq, Repr

structure Jwt where
  claims : JwtClaims
  key : String
  wellFormed : Bool
deriving DecidableEq, Repr

inductive JwtError where
  | decodeError
  | invalidSignature
  | expiredSignature
deriving DecidableEq, Repr

/-- PyJWT `jwt.encode(data, key, algorithm="HS256")`. -/
def jwtEncode (claims : JwtClaims) (key : String) : Jwt :=
  ⟨claims, key, true⟩

/-- PyJWT `jwt.decode(token, key, algorithms=["HS256"])` at time `now`. -/
def jwtDecode (t : Jwt) (key : String) (now : Int) : Except JwtError JwtClaims :=
  if !t.wellFormed then .error .decodeError
  else if t.key ≠ key then .error .invalidSignature
  else
    match t.claims.exp with
    | some e => if e < now then .error .expiredSignature else .ok t.claims
    | none => .ok t.claims

/-! ## Token Service (services/user_service.py) -/

/-- `UserService.create_access_token(data)`: `jwt.encode(data, SECRET_KEY,
algorithm=ALGORITHM)`. The process-wide `SECRET_KEY` is passed explicitly. -/
def create_access_token (secretKey : String) (data : JwtClaims) : Jwt :=
  jwtEncode data secretKey

/-- `UserService.verify_token`: decodes, maps `ExpiredSignatureError` to
`HTTPException(401, "Token expirado.")` and `InvalidTokenError` to
`HTTPException(401, "Token inválido.")`; on a successful decode,
`payload.get("username")` that is missing or falsy (the empty string) raises
`HTTPException(401, "Token inválido. Usuário não encontrado.")`. -/
def verify_token (secretKey : String) (t : Jwt) (now : Int) :
    Except HTTPError String :=
  match jwtDecode t secretKey now with
  | .error .expiredSignature => .error ⟨401, "Token expirado."⟩
  | .error .decodeError => .error ⟨401, "Token inválido."⟩
  | .error .invalidSignature => .error ⟨401, "Token inválido."⟩
  | .ok payload =>
    match payload.username with
    | none => .error ⟨401, "Token inválido. Usuário não encontrado."⟩
    | some u =>
      if u = "" then .error ⟨401, "Token inválido. Usuário não encontrado."⟩
      else .ok u

/-! ## Login and password reset (services/user_service.py) -/

/-- `UserService.login_user`: fetches the row for `username`; no row, or a
failed `bcrypt.checkpw`, both raise `ValueError("Usuário ou senha
incorretos.")`; otherwise a token is issued for the STORED username
(`str(db_username)`). The error side is the `ValueError` message. -/
def login_user (store : UserStore) (secretKey username password : String) :
    Except String Jwt :=
  match lookupUser store username with
  | none => .error "Usuário ou senha incorretos."
  | some (db_username, stored_hash) =>
    if !checkpw password stored_hash then .error "Usuário ou senha incorretos."
    else .ok (create_access_token secretKey ⟨some db_username, none⟩)

/-- The `/login` route handler: `ValueError` from the service becomes
`HTTPException(401, str(ve))`; success answers 200 with the token. -/
def login_controller (store : UserStore) (secretKey username password : String) :
    Except HTTPError Jwt :=
  match login_user store secretKey username password with
  | .ok t => .ok t
  | .error msg => .error ⟨401, msg⟩

/-- `UserService.reset_password`: mismatch check, then an `UPDATE` keyed by
username re-hashing the new password under the fresh `salt`; a zero
`rowcount` raises `ValueError("Usuário não encontrado.")`. The error side is
the `ValueError` message. -/
def reset_password_service (store : UserStore)
    (username new_password confirm_password : String) (salt : Nat) :
    Except String UserStore :=
  if new_password ≠ confirm_password then .error "As senhas não coincidem."
  else
    let updated := store.map
      (fun r => if r.1 = username then (r.1, hashpw new_password salt) else r)
    if store.countP (fun r => r.1 = username) = 0 then
      .error "Usuário não encontrado."
    else .ok updated

/-- The `/reset_password` route handler: `ValueError` becomes
`HTTPException(400, str(ve))`; success answers 200. Result: (store after the
call, HTTP status, body/detail). -/
def reset_password_controller (store : UserStore)
    (username new_password confirm_password : String) (salt : Nat) :
    UserStore × Nat × String :=
  match reset_password_service store username new_password confirm_password salt with
  | .ok store2 => (store2, 200, "Senha atualizada com sucesso")
  | .error msg => (store, 400, msg)

/-! ## Startup environment checks (services/user_service.py lines 17-43,
entities/database_agente.py lines 28-43)

The process environment is a finite map from variable name to string value.
`os.getenv` returns `none` for an absent variable; Python truthiness treats
`None` and the empty string alike as falsy. -/

abbrev Env := List (String × String)

def getenv (env : Env) (k : String) : Option String :=
  (env.find? (fun x => x.1 = k)).map (fun x => x.2)

/-- Python truthiness of an `os.getenv` result: `None` and `""` are falsy. -/
def truthy : Option String → Bool
  | none => false
  | some s => s ≠ ""

/-- Python f-string interpolation of an `os.getenv` result: `None` renders as
the four characters `None`. -/
def pyStr : Option String → String
  | none => "None"
  | some s => s

/-- `required_env_vars` in services/user_service.py line 25. -/
def required_env_vars : List String :=
  ["DB_DRIVER", "DB_SERVER", "DB_DATABASE", "DB_TRUSTED_CONNECTION"]

/-- Module-import-time checks of services/user_service.py: `SECRET_KEY` must
be set and truthy, then every name in `required_env_vars` must be set and
truthy; either failure raises `ValueError`, which aborts process startup. -/
def userServiceStartup (env : Env) : Except String Unit :=
  if !truthy (getenv env "SECRET_KEY") then
    .error "SECRET_KEY não foi definido corretamente nas variáveis de ambiente!"
  else
    let missing := required_env_vars.filter (fun v => !truthy (getenv env v))
    if missing ≠ [] then
      .error ("Variáveis de ambiente ausentes: " ++ String.intercalate ", " missing)
    else .ok ()

/-- `DatabaseAgent.CONNECTION_STRINGS` as built at import time
(entities/database_agente.py lines 28-43): two seeded entries whose
f-strings interpolate `os.getenv` results directly, with NO presence check —
an absent variable silently becomes the text `None`. -/
def initialConnectionStrings (env : Env) : Registry :=
  [("Banco de dados 1",
    "DRIVER=\x7b" ++ pyStr (getenv env "DB_DRIVER") ++ "\x7d;SERVER=" ++
      pyStr (getenv env "DB_SERVER") ++ ";DATABASE=" ++
      pyStr (getenv env "DB_DATABASE") ++ ";UID=" ++
      pyStr (getenv env "DB_USER") ++ ";PWD=" ++
      pyStr (getenv env "DB_PASSWORD") ++ ";"),
   ("Banco de dados 2",
    "DRIVER=\x7b" ++ pyStr (getenv env "DB_DRIVER_CRM") ++ "\x7d;SERVER=" ++
      pyStr (getenv env "DB_SERVER_CRM") ++ ";DATABASE=" ++
      pyStr (getenv env "DB_DATABASE_CRM") ++ ";UID=" ++
      pyStr (getenv env "DB_USER_CRM") ++ ";PWD=" ++
      pyStr (getenv env "DB_PASSWORD_CRM") ++ ";")]

/-- Process startup (main.py imports controllers, which imports
entities.database_agente — whose module body cannot raise — and
services.user_service — whose module body performs the checks above). The
process starts iff `userServiceStartup` passes, and then holds the two
seeded registry entries. -/
def appStartup (env : Env) : Except String Registry :=
  match userServiceStartup env with
  | .error e => .error e
  | .ok _ => .ok (initialConnectionStrings env)

/-! ## The OPENAI_API_KEY frame effect (entities/database_agente.py
`_setup_environment`, controllers `/ask`)

Each `/ask` request constructs a `DatabaseAgent`; `_setup_environment` runs
`if self.api_key: os.environ["OPENAI_API_KEY"] = self.api_key` — a truthy
caller key overwrites the process-wide variable, and nothing ever restores
it. `ChatOpenAI(model=...)` is constructed with no explicit key, so it reads
`OPENAI_API_KEY` from the process environment as it stands after the
assignment. -/

/-- Effect of one `_setup_environment` call on the `OPENAI_API_KEY`
environment entry: `apiKey` is the request's optional `api_key` field,
`envKey` the variable before the call; the result is the variable after the
call, which is also the key `ChatOpenAI` uses for this request. -/
def setupEnvironmentKey (apiKey : Option String) (envKey : Option String) :
    Option String :=
  match apiKey with
  | some k => if k = "" then envKey else some k
  | none => envKey

/-- The `OPENAI_API_KEY` variable after a sequence of `/ask` requests, given
each request's `api_key` field. -/
def runAskKeys (reqs : List (Option String)) (envKey : Option String) :
    Option String :=
  reqs.foldl (fun e a => setupEnvironmentKey a e) envKey

/-! ## Model allow-list (entities/model_provider.py) -/

def AVAILABLE_MODELS : List String :=
  ["gpt-4o-mini", "gpt-4-turbo", "gpt-4", "gpt-3.5-turbo"]

/-- `ModelProvider.get_available_models`. -/
def get_available_models : List String :=
  AVAILABLE_MODELS

/-- Whether an `Except` result is a success. -/
def isOkB {ε α : Type} : Except ε α → Bool
  | .ok _ => true
  | .error _ => false

/-- The HTTP status carried by an error result, `none` on success. -/
def httpStatus? {α : Type} : Except HTTPError α → Option Nat
  | .error e => some e.status
  | .ok _ => none

/-! ## Helper lemmas -/

theorem validate_ok_iff (reg : Registry) (n s d u p : String) :
    validate_connection_params reg n s d u p = .ok () ↔
      (n ≠ "" ∧ s ≠ "" ∧ d ≠ "" ∧ u ≠ "" ∧ p ≠ "" ∧ registryMem reg n = false) := by
  unfold validate_connection_params
  split_ifs <;> simp_all

theorem registryAdd_ok_inv (reg r2 : Registry) (n s d u p m : String)
    (h : registryAdd reg n s d u p = (r2, .ok m)) :
    n ≠ "" ∧ registryMem reg n = false ∧
      r2 = reg ++ [(n, buildConnectionString s d u p)] := by
  unfold registryAdd at h
  cases hv : validate_connection_params reg n s d u p with
  | error e => rw [hv] at h; simp at h
  | ok uu =>
    cases uu
    have hc := (validate_ok_iff reg n s d u p).mp hv
    rw [hv] at h
    unfold add_connection at h
    rw [hc.2.2.2.2.2] at h
    simp at h
    exact ⟨hc.1, hc.2.2.2.2.2, h.1.symm⟩

theorem registryAdd_fst (reg : Registry) (n s d u p : String) :
    (registryAdd reg n s d u p).1 = reg ∨
      ((registryAdd reg n s d u p).1 = reg ++ [(n, buildConnectionString s d u p)] ∧
        registryMem reg n = false) := by
  unfold registryAdd add_connection
  cases hv : validate_connection_params reg n s d u p with
  | error e => simp
  | ok uu =>
    cases uu
    have hmem := ((validate_ok_iff reg n s d u p).mp hv).2.2.2.2.2
    simp [hmem]

theorem mem_keys_iff (reg : Registry) (n : String) :
    registryMem reg n = true ↔ n ∈ reg.map (fun x => x.1) := by
  simp [registryMem, List.any_eq_true, List.mem_map]

theorem registryMem_cons_false (a : String × String) (t : Registry) (n : String)
    (h : registryMem (a :: t) n = false) :
    ¬ a.1 = n ∧ registryMem t n = false := by
  have hor : (decide (a.1 = n) || registryMem t n) = false := h
  rcases Bool.or_eq_false_iff.mp hor with ⟨h1, h2⟩
  exact ⟨by simpa using h1, h2⟩

theorem find?_append_fresh (reg : Registry) (n c : String)
    (h : registryMem reg n = false) :
    (reg ++ [(n, c)]).find? (fun x => x.1 = n) = some (n, c) := by
  induction reg with
  | nil => simp
  | cons a t ih =>
    rcases registryMem_cons_false a t n h with ⟨ha, ht⟩
    have : ((a :: t) ++ [(n, c)]) = a :: (t ++ [(n, c)]) := rfl
    rw [this, List.find?_cons_of_neg, ih ht]
    simpa using ha

/-! ## Claim theorems -/

/-- C1 counterexample: the claim that `/ask` and `/delete_database` are not
gated by the Auth Gateway (while register, reset_password, create_database,
database listing and model listing are) is false: in the source both routes
declare the `get_current_user` dependency, so of the listed routes only
`/login` is ungated. -/
theorem auth_gating_claim_false :
    ¬(requiresAuth .login = false ∧ requiresAuth .ask = false ∧
      requiresAuth .deleteDatabase = false ∧ requiresAuth .register = true ∧
      requiresAuth .resetPassword = true ∧ requiresAuth .createDatabase = true ∧
      requiresAuth .listDatabases = true ∧ requiresAuth .listModels = true) := by
  decide

/-- C1 (amended): `/login` is the only route not gated by the Auth Gateway;
`/ask` and `/delete_database/{db_name}` — like register, reset_password,
create_database, database listing and model listing — declare the
`get_current_user` dependency, so their handlers never run for a request
whose bearer-token check fails, while the login handler runs regardless. -/
theorem auth_gating :
    requiresAuth .login = false ∧ requiresAuth .ask = true ∧
    requiresAuth .deleteDatabase = true ∧ requiresAuth .register = true ∧
    requiresAuth .resetPassword = true ∧ requiresAuth .createDatabase = true ∧
    requiresAuth .listDatabases = true ∧ requiresAuth .listModels = true ∧
    handlerRuns .ask false = false ∧ handlerRuns .deleteDatabase false = false ∧
    handlerRuns .login false = true := by
  decide

theorem find?_none_of_fresh (reg : Registry) (n : String)
    (h : registryMem reg n = false) :
    reg.find? (fun x => x.1 = n) = none := by
  rw [List.find?_eq_none]
  intro x hx
  have := List.any_eq_false.mp h x hx
  simpa using this

theorem keysNodup_append (reg : Registry) (n c : String)
    (hnd : keysNodup reg) (hmem : registryMem reg n = false) :
    keysNodup (reg ++ [(n, c)]) := by
  unfold keysNodup at *
  rw [List.map_append, List.nodup_append]
  refine ⟨hnd, List.nodup_singleton n, ?_⟩
  intro a ha hb
  have hab : a = n := by simpa using hb
  subst hab
  have : registryMem reg a = true := (mem_keys_iff reg a).mpr ha
  rw [hmem] at this
  exact Bool.false_ne_true this

theorem keysNodup_eraseP (reg : Registry) (q : String × String → Bool)
    (hnd : keysNodup reg) : keysNodup (reg.eraseP q) := by
  unfold keysNodup at *
  exact hnd.sublist ((reg.eraseP_sublist).map (fun x => x.1))

theorem keysNodup_applyOp (reg : Registry) (op : RegOp)
    (h : keysNodup reg) : keysNodup (applyOp reg op) := by
  cases op with
  | add n s d u p =>
    show keysNodup (registryAdd reg n s d u p).1
    rcases registryAdd_fst reg n s d u p with hf | ⟨hf, hmem⟩
    · rw [hf]; exact h
    · rw [hf]; exact keysNodup_append reg n _ h hmem
  | remove n =>
    show keysNodup (match remove_connection reg n with
      | .ok r => r
      | .error _ => reg)
    cases hr : remove_connection reg n with
    | error e => exact h
    | ok r =>
      show keysNodup r
      unfold remove_connection at hr
      by_cases hm : registryMem reg n = true
      · simp [hm] at hr
        rw [← hr]
        exact keysNodup_eraseP reg _ h
      · have hm2 : registryMem reg n = false := by simpa using hm
        simp [hm2] at hr

theorem keysNodup_runOps (ops : List RegOp) (reg : Registry)
    (h : keysNodup reg) : keysNodup (runOps ops reg) := by
  induction ops generalizing reg with
  | nil => exact h
  | cons op t ih => exact ih (applyOp reg op) (keysNodup_applyOp reg op h)

/-- C2: the Connection Registry keeps names unique across every sequence of
operations; `add` fails with a ValidationError when some field is empty and
with a ConflictError when the name is already registered, in both cases
leaving the registry unchanged; `remove` and `resolve`
(`get_connection_string`) fail with a NotFoundError (surfaced as 404)
whenever the name is not registered. -/
theorem registry_contract :
    (∀ (reg : Registry) (n s d u p : String),
      (n = "" ∨ s = "" ∨ d = "" ∨ u = "" ∨ p = "") →
        errKind? (registryAdd reg n s d u p).2 = some .validation ∧
        (registryAdd reg n s d u p).1 = reg) ∧
    (∀ (reg : Registry) (n s d u p : String),
      n ≠ "" → s ≠ "" → d ≠ "" → u ≠ "" → p ≠ "" → registryMem reg n = true →
        errKind? (registryAdd reg n s d u p).2 = some .conflict ∧
        (registryAdd reg n s d u p).1 = reg) ∧
    (∀ (reg : Registry) (n : String), registryMem reg n = false →
        errKind? (remove_connection reg n) = some RegKind.notFound) ∧
    (∀ (reg : Registry) (n : String), registryMem reg n = false →
        httpStatus? (get_connection_string reg n) = some 404) ∧
    (∀ (ops : List RegOp) (reg : Registry),
        keysNodup reg → keysNodup (runOps ops reg)) := by
  refine ⟨?_, ?_, ?_, ?_, keysNodup_runOps⟩
  · intro reg n s d u p h
    unfold registryAdd validate_connection_params
    split_ifs with h1 h2 h3 h4 h5 h6 <;>
      simp_all [errKind?, RegError.kind]
  · intro reg n s d u p h1 h2 h3 h4 h5 hmem
    unfold registryAdd validate_connection_params
    simp [h1, h2, h3, h4, h5, hmem, errKind?, RegError.kind]
  · intro reg n hmem
    unfold remove_connection
    simp [hmem, errKind?, RegError.kind]
  · intro reg n hmem
    unfold get_connection_string
    by_cases hn : n = ""
    · simp [hn, httpStatus?]
    · simp [hn, find?_none_of_fresh reg n hmem, httpStatus?]

/-- C2 witness: concrete instances of each conjunct — an empty field, a
duplicate name, a removal and a lookup of an unregistered name, and the
uniqueness invariant after a concrete operation sequence. -/
theorem registry_contract_witness :
    (errKind? (registryAdd [] "" "s" "d" "u" "p").2 = some .validation ∧
      (registryAdd [] "" "s" "d" "u" "p").1 = []) ∧
    (errKind? (registryAdd [("X", "c")] "X" "s" "d" "u" "p").2 = some .conflict ∧
      (registryAdd [("X", "c")] "X" "s" "d" "u" "p").1 = [("X", "c")]) ∧
    errKind? (remove_connection [] "X") = some RegKind.notFound ∧
    httpStatus? (get_connection_string [] "X") = some 404 ∧
    keysNodup (runOps [RegOp.add "A" "s" "d" "u" "p", RegOp.remove "A"] []) :=
  ⟨registry_contract.1 [] "" "s" "d" "u" "p" (Or.inl rfl),
   registry_contract.2.1 [("X", "c")] "X" "s" "d" "u" "p"
     (by decide) (by decide) (by decide) (by decide) (by decide) (by decide),
   registry_contract.2.2.1 [] "X" (by decide),
   registry_contract.2.2.2.1 [] "X" (by decide),
   registry_contract.2.2.2.2 [RegOp.add "A" "s" "d" "u" "p", RegOp.remove "A"] []
     (by decide)⟩

/-- C5: every `/create_database` request that fails validation (some field
empty, or the name already registered) gets HTTP status 500 from the route
handler, because the service's own `HTTPException(400, ...)` is swallowed by
the handler's blanket `except Exception` and re-raised as 500. -/
theorem create_database_validation_500 (reg : Registry) (n s d u p : String)
    (h : n = "" ∨ s = "" ∨ d = "" ∨ u = "" ∨ p = "" ∨ registryMem reg n = true) :
    (create_database_controller reg n s d u p).2.1 = 500 := by
  have hval : ∀ e, validate_connection_params reg n s d u p = .error e →
      (create_database_controller reg n s d u p).2.1 = 500 := by
    intro e he
    unfold create_database_controller create_database_service registryAdd
    rw [he]
  cases hv : validate_connection_params reg n s d u p with
  | error e => exact hval e hv
  | ok uu =>
    exfalso
    cases uu
    have hc := (validate_ok_iff reg n s d u p).mp hv
    rcases h with h | h | h | h | h | h
    · exact hc.1 h
    · exact hc.2.1 h
    · exact hc.2.2.1 h
    · exact hc.2.2.2.1 h
    · exact hc.2.2.2.2.1 h
    · rw [hc.2.2.2.2.2] at h; exact Bool.false_ne_true h

/-- C5 witness: the concrete request with an empty logical name is answered
with status 500. -/
theorem create_database_validation_500_witness :
    (create_database_controller [] "" "srv" "db" "usr" "pwd").2.1 = 500 :=
  create_database_validation_500 [] "" "srv" "db" "usr" "pwd" (Or.inl rfl)

/-- C8: after a successful `create_database` for name `n`, resolving `n` via
`get_connection_string` returns exactly the descriptor just added: the
connection string built from server, database, user and password together
with the fixed driver identifier. -/
theorem add_then_resolve (reg r2 : Registry) (n s d u p m : String)
    (h : create_database_service reg n s d u p = (r2, .ok m)) :
    get_connection_string r2 n = .ok (buildConnectionString s d u p) := by
  have hadd : registryAdd reg n s d u p = (r2, .ok m) := by
    unfold create_database_service at h
    cases ha : registryAdd reg n s d u p with
    | mk r1 res =>
      cases res with
      | error e => rw [ha] at h; simp at h
      | ok mm => rw [ha] at h; simp at h; rw [h.1, h.2]
  obtain ⟨hn, hmem, hr2⟩ := registryAdd_ok_inv reg r2 n s d u p m hadd
  subst hr2
  unfold get_connection_string
  rw [if_neg hn, find?_append_fresh reg n _ hmem]

/-- C8 witness: adding name `X` to the empty registry and resolving it
returns the built connection string. -/
theorem add_then_resolve_witness :
    get_connection_string [("X", buildConnectionString "s" "d" "u" "p")] "X" =
      .ok (buildConnectionString "s" "d" "u" "p") :=
  add_then_resolve [] [("X", buildConnectionString "s" "d" "u" "p")]
    "X" "s" "d" "u" "p" "Banco de dados X criado com sucesso." rfl

/-- C4: a login attempt with an unknown username and a login attempt with a
known username but a wrong password fail with the same ValueError message,
and the `/login` handler turns both into the same 401 response — the two
causes are indistinguishable to the caller. -/
theorem login_failure_indistinguishable
    (store1 : UserStore) (key1 u1 p1 : String)
    (store2 : UserStore) (key2 u2 p2 d2 : String) (h2 : BcryptHash)
    (hnone : lookupUser store1 u1 = none)
    (hsome : lookupUser store2 u2 = some (d2, h2))
    (hbad : checkpw p2 h2 = false) :
    login_user store1 key1 u1 p1 = .error "Usuário ou senha incorretos." ∧
    login_user store2 key2 u2 p2 = .error "Usuário ou senha incorretos." ∧
    login_controller store1 key1 u1 p1 = login_controller store2 key2 u2 p2 := by
  have e1 : login_user store1 key1 u1 p1 = .error "Usuário ou senha incorretos." := by
    unfold login_user
    rw [hnone]
  have e2 : login_user store2 key2 u2 p2 = .error "Usuário ou senha incorretos." := by
    unfold login_user
    rw [hsome]
    simp [hbad]
  refine ⟨e1, e2, ?_⟩
  unfold login_controller
  rw [e1, e2]

/-- C4 witness: unknown user `alice` against an empty store and wrong
password for stored user `bob` produce identical failures. -/
theorem login_failure_indistinguishable_witness :
    login_user [] "k" "alice" "pw" = .error "Usuário ou senha incorretos." ∧
    login_user [("bob", hashpw "right" 0)] "k" "bob" "wrong" =
      .error "Usuário ou senha incorretos." ∧
    login_controller [] "k" "alice" "pw" =
      login_controller [("bob", hashpw "right" 0)] "k" "bob" "wrong" :=
  login_failure_indistinguishable [] "k" "alice" "pw"
    [("bob", hashpw "right" 0)] "k" "bob" "wrong" "bob" (hashpw "right" 0)
    rfl rfl (by decide)

/-- C3 counterexample: the round-trip claim fails for the empty username.
Nothing stops a row with username `""` from existing (registration never
validates the username), login for it succeeds and issues a token, yet
`verify_token` rejects that token because Python `if not username` treats
the empty string like a missing claim. -/
theorem token_roundtrip_claim_false :
    login_user [("", hashpw "pw" 0)] "secret" "" "pw" =
      .ok (create_access_token "secret" ⟨some "", none⟩) ∧
    verify_token "secret" (create_access_token "secret" ⟨some "", none⟩) 0 =
      .error ⟨401, "Token inválido. Usuário não encontrado."⟩ :=
  ⟨rfl, rfl⟩

/-- C3 (amended): for every NONEMPTY username `u` for which login succeeds,
verifying the token login issued yields `u` back, at any verification
time (the issued token carries no expiry claim). -/
theorem token_roundtrip (store : UserStore) (key u p : String) (tok : Jwt)
    (now : Int) (hu : u ≠ "") (h : login_user store key u p = .ok tok) :
    verify_token key tok now = .ok u := by
  unfold login_user at h
  cases hl : lookupUser store u with
  | none => rw [hl] at h; exact absurd h (by simp)
  | some r =>
    obtain ⟨d, hh⟩ := r
    rw [hl] at h
    by_cases hc : checkpw p hh = true
    · simp [hc] at h
      have hd : d = u := by
        have hp := List.find?_some hl
        simpa using hp
      subst hd
      rw [← h]
      unfold verify_token create_access_token jwtEncode jwtDecode
      simp [hu]
    · have hc2 : checkpw p hh = false := by simpa using hc
      simp [hc2] at h

/-- C3 witness: the token issued when `alice` logs in verifies back to
`alice`. -/
theorem token_roundtrip_witness :
    verify_token "secret"
      (create_access_token "secret" ⟨some "alice", none⟩) 0 = .ok "alice" :=
  token_roundtrip [("alice", hashpw "pw" 0)] "secret" "alice" "pw"
    (create_access_token "secret" ⟨some "alice", none⟩) 0 (by decide) rfl

/-- C6 counterexample: a token whose expiry has passed but whose signature
does not validate fails `verify_token` with the INVALID variant, not the
expired one — PyJWT verifies the signature before it validates the `exp`
claim, so "expired regardless of signature validity" is false. -/
theorem verify_expired_claim_false :
    verify_token "secret" ⟨⟨some "alice", some (-1)⟩, "otherkey", true⟩ 0 =
      .error ⟨401, "Token inválido."⟩ ∧
    (-1 : Int) < 0 ∧ ("otherkey" : String) ≠ "secret" ∧
    (⟨401, "Token inválido."⟩ : HTTPError) ≠ ⟨401, "Token expirado."⟩ :=
  ⟨rfl, by decide, by decide, by decide⟩

/-- C6 (amended): `verify_token` fails with the expired variant exactly for
well-formed tokens signed with the server key whose expiry has passed; a
malformed token or one whose signature does not validate fails with the
invalid variant, as does a decodable token lacking a (truthy) username
claim; and every failure is one of those three 401 errors — no other error
kinds reach the caller. -/
theorem verify_error_taxonomy :
    (∀ (key : String) (t : Jwt) (now e : Int),
      t.wellFormed = true → t.key = key → t.claims.exp = some e → e < now →
        verify_token key t now = .error ⟨401, "Token expirado."⟩) ∧
    (∀ (key : String) (t : Jwt) (now : Int),
      t.wellFormed = false ∨ t.key ≠ key →
        verify_token key t now = .error ⟨401, "Token inválido."⟩) ∧
    (∀ (key : String) (t : Jwt) (now : Int),
      t.wellFormed = true → t.key = key →
      (∀ e, t.claims.exp = some e → ¬ e < now) →
      (t.claims.username = none ∨ t.claims.username = some "") →
        verify_token key t now =
          .error ⟨401, "Token inválido. Usuário não encontrado."⟩) ∧
    (∀ (key : String) (t : Jwt) (now : Int) (err : HTTPError),
      verify_token key t now = .error err →
        err = ⟨401, "Token expirado."⟩ ∨ err = ⟨401, "Token inválido."⟩ ∨
        err = ⟨401, "Token inválido. Usuário não encontrado."⟩) := by
  refine ⟨?_, ?_, ?_, ?_⟩
  · intro key t now e hw hk he hlt
    unfold verify_token jwtDecode
    simp [hw, hk, he, hlt]
  · intro key t now h
    unfold verify_token jwtDecode
    rcases h with h | h
    · simp [h]
    · by_cases hw : t.wellFormed <;> simp [hw, h]
  · intro key t now hw hk hexp hun
    unfold verify_token jwtDecode
    rcases hun with h | h
    · cases hex : t.claims.exp with
      | none => simp [hw, hk, hex, h]
      | some e => simp [hw, hk, hex, hexp e hex, h]
    · cases hex : t.claims.exp with
      | none => simp [hw, hk, hex, h]
      | some e => simp [hw, hk, hex, hexp e hex, h]
  · intro key t now err h
    unfold verify_token jwtDecode at h
    by_cases hw : t.wellFormed = true
    · by_cases hk : t.key = key
      · cases hex : t.claims.exp with
        | none =>
          rw [hw, hk, hex] at h
          simp at h
          cases hun : t.claims.username with
          | none => rw [hun] at h; simp at h; right; right; exact h.symm
          | some u =>
            rw [hun] at h
            by_cases hu : u = ""
            · simp [hu] at h; right; right; exact h.symm
            · simp [hu] at h
        | some e =>
          rw [hw, hk, hex] at h
          by_cases hlt : e < now
          · simp [hlt] at h; left; exact h.symm
          · simp [hlt] at h
            cases hun : t.claims.username with
            | none => rw [hun] at h; simp at h; right; right; exact h.symm
            | some u =>
              rw [hun] at h
              by_cases hu : u = ""
              · simp [hu] at h; right; right; exact h.symm
              · simp [hu] at h
      · rw [hw] at h
        simp [hk] at h
        right; left; exact h.symm
    · have hw2 : t.wellFormed = false := by simpa using hw
      rw [hw2] at h
      simp at h
      right; left; exact h.symm

/-- C6 witness: concrete tokens exercising each arm of the taxonomy. -/
theorem verify_error_taxonomy_witness :
    verify_token "k" ⟨⟨some "a", some (-1)⟩, "k", true⟩ 0 =
      .error ⟨401, "Token expirado."⟩ ∧
    verify_token "k" ⟨⟨some "a", none⟩, "j", true⟩ 0 =
      .error ⟨401, "Token inválido."⟩ ∧
    verify_token "k" ⟨⟨none, none⟩, "k", true⟩ 0 =
      .error ⟨401, "Token inválido. Usuário não encontrado."⟩ ∧
    ((⟨401, "Token expirado."⟩ : HTTPError) = ⟨401, "Token expirado."⟩ ∨
      (⟨401, "Token expirado."⟩ : HTTPError) = ⟨401, "Token inválido."⟩ ∨
      (⟨401, "Token expirado."⟩ : HTTPError) =
        ⟨401, "Token inválido. Usuário não encontrado."⟩) :=
  ⟨verify_error_taxonomy.1 "k" ⟨⟨some "a", some (-1)⟩, "k", true⟩ 0 (-1)
      rfl rfl rfl (by decide),
   verify_error_taxonomy.2.1 "k" ⟨⟨some "a", none⟩, "j", true⟩ 0
      (Or.inr (by decide)),
   verify_error_taxonomy.2.2.1 "k" ⟨⟨none, none⟩, "k", true⟩ 0 rfl rfl
      (by intro e he; cases he) (Or.inl rfl),
   verify_error_taxonomy.2.2.2 "k" ⟨⟨some "a", some (-1)⟩, "k", true⟩ 0
      ⟨401, "Token expirado."⟩
      (verify_error_taxonomy.1 "k" ⟨⟨some "a", some (-1)⟩, "k", true⟩ 0 (-1)
        rfl rfl rfl (by decide))⟩

/-- C7 counterexample: resetting the password of an unknown username with
matching passwords is answered with HTTP 400, not the 404 the claim (and the
error taxonomy) promises — the `/reset_password` handler maps every
`ValueError`, including "Usuário não encontrado.", to 400. -/
theorem reset_password_404_claim_false :
    reset_password_controller [] "bob" "x" "x" 0 =
      ([], 400, "Usuário não encontrado.") ∧ (400 : Nat) ≠ 404 :=
  ⟨rfl, by decide⟩

/-- C7 (amended): `reset_password` with matching passwords and a username
matching zero stored rows fails with the not-found `ValueError`, which the
`/reset_password` handler surfaces as HTTP 400 (not 404). -/
theorem reset_password_unknown_user_400 (store : UserStore)
    (u np cp : String) (salt : Nat) (hmatch : np = cp)
    (hzero : store.countP (fun r => r.1 = u) = 0) :
    reset_password_controller store u np cp salt =
      (store, 400, "Usuário não encontrado.") := by
  unfold reset_password_controller reset_password_service
  subst hmatch
  simp [hzero]

/-- C7 witness: resetting `bob` against a store holding only `alice`. -/
theorem reset_password_unknown_user_400_witness :
    reset_password_controller [("alice", hashpw "a" 0)] "bob" "x" "x" 1 =
      ([("alice", hashpw "a" 0)], 400, "Usuário não encontrado.") :=
  reset_password_unknown_user_400 [("alice", hashpw "a" 0)] "bob" "x" "x" 1
    rfl (by decide)

/-- C9 counterexample: with the signing secret and the four credential-store
variables set but `DB_PASSWORD` — a parameter of the first built-in
connection set — absent, the process still starts: `database_agente.py`
interpolates `os.getenv` results into the seeded connection strings with no
presence check, so the missing variable silently becomes the text `None`. -/
theorem startup_claim_false :
    getenv [("SECRET_KEY", "s"), ("DB_DRIVER", "drv"), ("DB_SERVER", "srv"),
        ("DB_DATABASE", "db"), ("DB_TRUSTED_CONNECTION", "yes")]
      "DB_PASSWORD" = none ∧
    isOkB (appStartup [("SECRET_KEY", "s"), ("DB_DRIVER", "drv"),
        ("DB_SERVER", "srv"), ("DB_DATABASE", "db"),
        ("DB_TRUSTED_CONNECTION", "yes")]) = true ∧
    appStartup [("SECRET_KEY", "s"), ("DB_DRIVER", "drv"), ("DB_SERVER", "srv"),
        ("DB_DATABASE", "db"), ("DB_TRUSTED_CONNECTION", "yes")] =
      .ok [("Banco de dados 1",
            "DRIVER=\x7bdrv\x7d;SERVER=srv;DATABASE=db;UID=None;PWD=None;"),
           ("Banco de dados 2",
            "DRIVER=\x7bNone\x7d;SERVER=None;DATABASE=None;UID=None;PWD=None;")] :=
  ⟨rfl, rfl, rfl⟩

/-- C9 (amended): startup is fatal exactly for the signing secret and the
four credential-store variables: an untruthy `SECRET_KEY` or any untruthy
member of `required_env_vars` aborts startup, while any environment
satisfying just those five checks starts successfully — absence of the
remaining built-in connection parameters never prevents startup. -/
theorem startup_env_checks :
    (∀ env : Env, truthy (getenv env "SECRET_KEY") = false →
        isOkB (appStartup env) = false) ∧
    (∀ (env : Env) (v : String), v ∈ required_env_vars →
        truthy (getenv env v) = false → isOkB (appStartup env) = false) ∧
    (∀ env : Env, truthy (getenv env "SECRET_KEY") = true →
        (∀ v ∈ required_env_vars, truthy (getenv env v) = true) →
        appStartup env = .ok (initialConnectionStrings env)) := by
  refine ⟨?_, ?_, ?_⟩
  · intro env hs
    unfold appStartup userServiceStartup
    simp [hs, isOkB]
  · intro env v hv ht
    unfold appStartup userServiceStartup
    by_cases hs : truthy (getenv env "SECRET_KEY") = true
    · have hne : required_env_vars.filter (fun w => !truthy (getenv env w)) ≠ [] :=
        List.ne_nil_of_mem (List.mem_filter.mpr ⟨hv, by simp [ht]⟩)
      simp [hs, hne, isOkB]
    · have hs2 : truthy (getenv env "SECRET_KEY") = false := by simpa using hs
      simp [hs2, isOkB]
  · intro env hs hall
    unfold appStartup userServiceStartup
    have hnil : required_env_vars.filter (fun w => !truthy (getenv env w)) = [] := by
      rw [List.filter_eq_nil_iff]
      intro w hw
      simp [hall w hw]
    simp [hs, hnil]

/-- C9 witness: an empty environment refuses to start (missing secret); an
environment missing only `DB_TRUSTED_CONNECTION` refuses to start; the
five-variable environment of the counterexample starts. -/
theorem startup_env_checks_witness :
    isOkB (appStartup []) = false ∧
    isOkB (appStartup [("SECRET_KEY", "s"), ("DB_DRIVER", "drv"),
        ("DB_SERVER", "srv"), ("DB_DATABASE", "db")]) = false ∧
    appStartup [("SECRET_KEY", "s"), ("DB_DRIVER", "drv"), ("DB_SERVER", "srv"),
        ("DB_DATABASE", "db"), ("DB_TRUSTED_CONNECTION", "yes")] =
      .ok (initialConnectionStrings [("SECRET_KEY", "s"), ("DB_DRIVER", "drv"),
        ("DB_SERVER", "srv"), ("DB_DATABASE", "db"),
        ("DB_TRUSTED_CONNECTION", "yes")]) :=
  ⟨startup_env_checks.1 [] rfl,
   startup_env_checks.2.1 [("SECRET_KEY", "s"), ("DB_DRIVER", "drv"),
      ("DB_SERVER", "srv"), ("DB_DATABASE", "db")]
      "DB_TRUSTED_CONNECTION" (by decide) rfl,
   startup_env_checks.2.2 [("SECRET_KEY", "s"), ("DB_DRIVER", "drv"),
      ("DB_SERVER", "srv"), ("DB_DATABASE", "db"),
      ("DB_TRUSTED_CONNECTION", "yes")] rfl (by decide)⟩

theorem runAskKeys_of_omitted (post : List (Option String)) (s : Option String)
    (h : ∀ x ∈ post, x = none ∨ x = some "") :
    runAskKeys post s = s := by
  induction post generalizing s with
  | nil => rfl
  | cons a t ih =>
    have ha := h a (by simp)
    have hstep : setupEnvironmentKey a s = s := by
      rcases ha with ha | ha <;> simp [ha, setupEnvironmentKey]
    show runAskKeys t (setupEnvironmentKey a s) = s
    rw [hstep]
    exact ih s (fun x hx => h x (by simp [hx]))

/-- C10: a caller-supplied nonempty `api_key` on `/ask` is written into the
process-wide `OPENAI_API_KEY` and never restored: after any earlier
requests, a request carrying key `k` followed by any run of requests that
omit the key (or send the falsy empty string) leaves the variable at `k`,
and every one of those later key-less requests runs with `k` as its
effective key. -/
theorem api_key_override_leaks (pre post : List (Option String))
    (k : String) (e0 : Option String) (hk : k ≠ "")
    (hpost : ∀ x ∈ post, x = none ∨ x = some "") :
    runAskKeys (pre ++ some k :: post) e0 = some k ∧
    ∀ x ∈ post, setupEnvironmentKey x (some k) = some k := by
  constructor
  · unfold runAskKeys
    rw [List.foldl_append]
    show runAskKeys (some k :: post) (runAskKeys pre e0) = some k
    show runAskKeys post (setupEnvironmentKey (some k) (runAskKeys pre e0)) = some k
    rw [show setupEnvironmentKey (some k) (runAskKeys pre e0) = some k by
      simp [setupEnvironmentKey, hk]]
    exact runAskKeys_of_omitted post (some k) hpost
  · intro x hx
    rcases hpost x hx with hx2 | hx2 <;> simp [hx2, setupEnvironmentKey]

/-- C10 witness: after requests with keys `first` then `second`, two key-less
requests still run with `second` and leave the variable at `second`. -/
theorem api_key_override_leaks_witness :
    runAskKeys [some "first", some "second", none, some ""] none = some "second" ∧
    ∀ x ∈ [(none : Option String), some ""],
      setupEnvironmentKey x (some "second") = some "second" :=
  api_key_override_leaks [some "first"] [none, some ""] "second" none
    (by decide) (by decide)

end APIAgente
